import Mathlib

/-!
# Verification of the ODATANO-WATCH Cardano watcher core

Shallow embedding of the repository's watcher core:

* `srv/admin-service.ts` (concatenated modules) — the typed backend errors
  and `normalizeBackendError`, plus `handleBackendRequest`;
* `src/blockfrost.ts` — the provider client (`fetchAddressTransactions`,
  `getTransaction`);
* `src/watcher.ts` — the dual-path poller (`setup`, `start`,
  `processAddress`, `pollWatchedAddresses`, `processTransactionSubmission`,
  `pollTransactionSubmissions`, `manualPoll`).

JavaScript-specific semantics that the source relies on are modelled
explicitly: optional / nullable fields become `Option`, JS truthiness of
numbers (`0` is falsy) and strings (`""` is falsy) is modelled by dedicated
helpers, and the `a || b` default idiom is modelled by `jsOrNum` /
`jsOrStr`.  Database writes, inserts and event emissions are recorded as an
ordered effect trace; a rolled-back transaction contributes no effects.
JSON serialisation of payloads is modelled by embedding the serialised
value itself.  Amount arithmetic (`parseFloat(q)/1000000`) is modelled over
`Rat` with integer lovelace quantities.
-/

namespace OdatanoWatch

/-! ## JS truthiness helpers -/

/-- JS truthiness of an optional number: `undefined`, `null` and `0` are falsy. -/
def numTruthy : Option Int → Bool
  | none => false
  | some n => !(n == 0)

/-- JS truthiness of an optional string: `undefined`, `null` and `""` are falsy. -/
def strTruthy : Option String → Bool
  | none => false
  | some s => !(s == "")

/-- The JS `a || b` idiom on optional numbers (`0` counts as falsy). -/
def jsOrNum (a b : Option Int) : Option Int :=
  if numTruthy a then a else b

/-- The JS `m || d` idiom on an optional string with a default. -/
def jsOrStr (a : Option String) (d : String) : String :=
  if strTruthy a then a.getD d else d

/-- ASCII lower-casing of a character (models the `i` regex flag). -/
def lowerChar (c : Char) : Char :=
  if 'A' ≤ c ∧ c ≤ 'Z' then Char.ofNat (c.toNat + 32) else c

/-- ASCII lower-casing of a string. -/
def lowerStr (s : String) : String :=
  String.mk (s.toList.map lowerChar)

/-- `hasInfixChars hay needle` decides whether `needle` occurs contiguously in `hay`. -/
def hasInfixChars : List Char → List Char → Bool
  | hay, needle =>
    needle.isPrefixOf hay ||
      match hay with
      | [] => false
      | _ :: t => hasInfixChars t needle

/-- Case-insensitive substring test, the model of `/pat/i.test(msg)` for a
literal pattern. -/
def matchesPat (msg pat : String) : Bool :=
  hasInfixChars (lowerStr msg).toList (lowerStr pat).toList

/-! ## Typed backend errors (`srv/utils/error-codes.ts`, error classes) -/

/-- A normalized backend error, the Lean image of the `BackendError` class:
`message`, HTTP-equivalent `statusCode`, an error `code` string, the backend
name, the retryability flag and an optional target. -/
structure BackendError where
  message : String
  statusCode : Nat
  code : String
  backendName : Option String
  isRetryable : Bool
  target : Option String
  deriving Repr, DecidableEq

/-- `NotFoundError`: 404, `WATCHER_NOT_FOUND`, not retryable. -/
def mkNotFoundError (message : String) (backendName : Option String) : BackendError :=
  ⟨message, 404, "WATCHER_NOT_FOUND", backendName, false, none⟩

/-- `ProviderUnavailableError`: 503, `WATCHER_PROVIDER_UNAVAILABLE`, retryable. -/
def mkProviderUnavailableError (message : String) (backendName : Option String) : BackendError :=
  ⟨message, 503, "WATCHER_PROVIDER_UNAVAILABLE", backendName, true, none⟩

/-- `RateLimitError`: 429, `WATCHER_PROVIDER_RATE_LIMITED`, retryable. -/
def mkRateLimitError (message : String) (backendName : Option String) : BackendError :=
  ⟨message, 429, "WATCHER_PROVIDER_RATE_LIMITED", backendName, true, none⟩

/-- A raw (un-normalized) thrown value as `normalizeBackendError` inspects it:
an optional `message`, the three places a status may live
(`response.status`, `status`, `statusCode`) and an optional string `code`
(such as `"ECONNREFUSED"`). -/
structure RawError where
  message : Option String
  responseStatus : Option Int
  status : Option Int
  statusCode : Option Int
  code : Option String
  deriving Repr, DecidableEq

/-- The input of the normalizer: either an already-normalized `BackendError`
instance or an arbitrary raw error. -/
inductive JsError where
  | backend (e : BackendError)
  | raw (e : RawError)
  deriving Repr, DecidableEq

/-- The extracted status: `err.response?.status || err.status || err.statusCode`. -/
def extractStatus (r : RawError) : Option Int :=
  jsOrNum r.responseStatus (jsOrNum r.status r.statusCode)

/-- The extracted message: `(err as Error).message || 'Unknown error'`. -/
def extractMessage (r : RawError) : String :=
  jsOrStr r.message "Unknown error"

/-- `/rate limit|too many requests/i.test(message)` -/
def rateLimitMsg (m : String) : Bool :=
  matchesPat m "rate limit" || matchesPat m "too many requests"

/-- `/not found/i.test(message)` -/
def notFoundMsg (m : String) : Bool :=
  matchesPat m "not found"

/-- `/timeout|network|econnrefused|enotfound/i.test(message)` -/
def networkMsg (m : String) : Bool :=
  matchesPat m "timeout" || matchesPat m "network" ||
    matchesPat m "econnrefused" || matchesPat m "enotfound"

/-- `normalizeBackendError` from `srv` utils: normalizes an arbitrary thrown
value into a `BackendError` by the source's priority cascade. -/
def normalizeBackendError (err : JsError) (backendName : Option String) : BackendError :=
  match err with
  | .backend e => e
  | .raw r =>
    let message := extractMessage r
    let st := extractStatus r
    if st == some 429 || rateLimitMsg message then
      mkRateLimitError message backendName
    else if st == some 404 || notFoundMsg message then
      mkNotFoundError message backendName
    else if numTruthy st && 500 ≤ st.getD 0 && st.getD 0 < 600 then
      mkProviderUnavailableError message backendName
    else if numTruthy st && 400 ≤ st.getD 0 && st.getD 0 < 500 then
      if notFoundMsg message then mkNotFoundError message backendName
      else mkProviderUnavailableError message backendName
    else if networkMsg message || r.code == some "ECONNREFUSED"
        || r.code == some "ETIMEDOUT" then
      mkProviderUnavailableError message backendName
    else
      mkProviderUnavailableError ("Unknown error: " ++ message) backendName

/-! ## Provider data shapes (`src/blockfrost.ts`) -/

/-- One `{unit, quantity}` entry of a Blockfrost amount array; the decimal
quantity string is modelled as the integer it parses to. -/
structure AssetAmount where
  unit : String
  quantity : Int
  deriving Repr, DecidableEq

/-- One transaction output as returned by `txsUtxos`: an optional address and
an amount array. -/
structure UtxoOutput where
  address : Option String
  amount : List AssetAmount
  deriving Repr, DecidableEq

/-- The per-transaction detail data the source reads from `txs(tx_hash)` and
`txsUtxos(tx_hash)`: block height/hash/time, the fee (lovelace, parsed from
its decimal string), the metadata count with the metadata value the
`txsMetadata` call would yield, and the input addresses / outputs. -/
structure TxDetailsRaw where
  block_height : Int
  block : String
  block_time : Int
  fees : Int
  metadata_count : Nat
  metadataVal : Option String
  inputAddresses : List (Option String)
  outputs : List UtxoOutput
  deriving Repr, DecidableEq

/-- One element of the list returned by `addressesTransactions`: the hash,
and the outcome of the per-transaction detail fetches (`none` models the
detail fetch throwing, which the inner `catch` turns into skipping the
transaction). -/
structure TxEntry where
  tx_hash : String
  details : Option TxDetailsRaw
  deriving Repr, DecidableEq

/-- The parsed transaction summary (`TransactionData` in `src/blockfrost.ts`). -/
structure TransactionData where
  txHash : String
  blockNumber : Int
  blockHash : String
  sender : Option String
  receiver : Option String
  amount : Rat
  fee : Rat
  metadata : Option String
  assets : List AssetAmount
  timestamp : Option Int
  deriving Repr, DecidableEq

/-- The parsing of one fetched transaction into a `TransactionData`, from the
loop body of `fetchAddressTransactions`:
`sender = inputs[0]?.address`, `receiver = outputs[0]?.address`,
`amount = outputs[0]?.amount ? (find lovelace)?.quantity || 0 : 0` divided by
1000000 (an array is always truthy in JS, so only the presence of
`outputs[0]` is tested), `fee = parseFloat(fees)/1000000` and metadata only
when `metadata_count > 0`. -/
def parseTx (hash : String) (d : TxDetailsRaw) : TransactionData :=
  { txHash := hash
    blockNumber := d.block_height
    blockHash := d.block
    sender := (d.inputAddresses.head?).join
    receiver := (d.outputs.head?).bind (·.address)
    amount :=
      match d.outputs.head? with
      | some o =>
        (((o.amount.find? (fun a => a.unit == "lovelace")).map (·.quantity)).getD 0 : Rat)
          / 1000000
      | none => 0
    fee := (d.fees : Rat) / 1000000
    metadata := if d.metadata_count > 0 then d.metadataVal else none
    assets := d.outputs.flatMap (fun o => o.amount.filter (fun a => !(a.unit == "lovelace")))
    timestamp := some d.block_time }

/-- The `continue` guard of the fetch loop:
`if (fromBlock && txDetails.block_height <= fromBlock) continue;`.
`fromBlock` is subject to JS truthiness, so `null` and `0` disable the
filter. -/
def skipByFromBlock (fromBlock : Option Int) (height : Int) : Bool :=
  numTruthy fromBlock && height ≤ fromBlock.getD 0

/-- `fetchAddressTransactions(address, fromBlock)` from `src/blockfrost.ts`,
on the success path of the provider call.  `chain` is the provider's ordered
transaction list for the queried address; `addressesTransactions` is called
with `count: 100`, so at most the first 100 entries are returned.  An empty
provider answer yields `[]`; a transaction whose detail fetch throws is
skipped; a transaction at a height not strictly above a truthy `fromBlock`
is skipped. -/
def fetchAddressTransactions (chain : List TxEntry) (fromBlock : Option Int) :
    List TransactionData :=
  let transactions := chain.take 100
  if transactions.isEmpty then []
  else
    transactions.filterMap (fun tx =>
      match tx.details with
      | none => none
      | some d =>
        if skipByFromBlock fromBlock d.block_height then none
        else some (parseTx tx.tx_hash d))

/-- The raw transaction record `blockfrostClient.txs(hash)` resolves with, as
read by `getTransaction`. -/
structure BfTx where
  hash : String
  block : String
  block_height : Int
  block_time : Int
  fees : Int
  output_amount : List AssetAmount
  deriving Repr, DecidableEq

/-- The provider-side transaction info (`TransactionInfo` in the current
blockfrost module): hash, block, height, parsed amount and fee,
confirmations derived from the latest block height, and the observed
timestamp. -/
structure TransactionInfo where
  txHash : String
  blockHash : String
  blockHeight : Int
  amount : Rat
  fee : Rat
  confirmations : Int
  lastSeen : Int
  deriving Repr, DecidableEq

/-- The parsing of a found transaction in `getTransaction`, with
`confirmations = (latestBlock.height ?? 0) - tx.block_height`. -/
def parseTxInfo (tx : BfTx) (latestHeight : Option Int) : TransactionInfo :=
  { txHash := tx.hash
    blockHash := tx.block
    blockHeight := tx.block_height
    amount :=
      (((tx.output_amount.find? (fun a => a.unit == "lovelace")).map (·.quantity)).getD 0 : Rat)
        / 1000000
    fee := (tx.fees : Rat) / 1000000
    confirmations := latestHeight.getD 0 - tx.block_height
    lastSeen := tx.block_time }

/-- `handleBackendRequest` from `srv/utils`: runs the wrapped call and
normalizes any thrown value into a `BackendError`, rethrowing it. -/
def handleBackendRequest {α : Type} (outcome : Except RawError α) (backendName : String) :
    Except BackendError α :=
  match outcome with
  | .ok a => .ok a
  | .error e => .error (normalizeBackendError (.raw e) (some backendName))

/-- `getTransaction(hash)` from the blockfrost module: `none` when the client
is not initialized; otherwise the combined outcome of `txs(hash)` and
`blocksLatest()` is wrapped in `handleBackendRequest` — and the trailing
`.catch` maps EVERY rejection, the normalized typed failure included, to
`null`. -/
def getTransaction (initialized : Bool)
    (lookup : Except RawError (BfTx × Option Int)) : Option TransactionInfo :=
  if !initialized then none
  else
    match handleBackendRequest lookup "Blockfrost" with
    | .ok (tx, latestHeight) => some (parseTxInfo tx latestHeight)
    | .error _ => none

/-! ## Store entities (`db/schema.cds`, as read by `src/watcher.ts`) -/

/-- A `WatchedAddress` row as the poller reads it. -/
structure WatchedAddress where
  address : String
  description : Option String
  active : Bool
  lastCheckedBlock : Option Int
  network : String
  deriving Repr, DecidableEq

/-- A `TransactionSubmission` row as the poller reads and updates it.
`currentStatus` is a nullable string column; `lastChecked` is an abstract
timestamp. -/
structure TransactionSubmission where
  txHash : String
  active : Bool
  currentStatus : Option String
  confirmations : Int
  lastChecked : Option Int
  deriving Repr, DecidableEq

/-- The serialised JSON payload of a `BlockchainEvent` row:
either `JSON.stringify(tx_data)` for an address event, or the
`{foundAt, blockHeight, confirmations}` object for a submission event. -/
inductive EventPayload where
  | txData (d : TransactionData)
  | found (foundAt : Int) (blockHeight : Int) (confirmations : Int)
  deriving Repr, DecidableEq

/-- A `BlockchainEvent` row as the watcher inserts it. -/
structure BlockchainEvent where
  type : String
  blockNumber : Option Int
  blockHash : Option String
  txHash : Option String
  address_address : Option String
  submission_txHash : Option String
  payload : EventPayload
  network : String
  processed : Bool
  deriving Repr, DecidableEq

/-- A `Transaction` row as `processAddress` inserts it (JSON stringification
of metadata/assets is modelled by carrying the value itself). -/
structure TransactionRow where
  txHash : String
  blockNumber : Int
  blockHash : String
  sender : Option String
  receiver : Option String
  amount : Rat
  fee : Rat
  metadata : Option String
  assets : List AssetAmount
  status : String
  network : String
  deriving Repr, DecidableEq

/-- The field patch of an `UPDATE TransactionSubmission .set({...})` call:
`none` leaves a column untouched. -/
structure SubPatch where
  currentStatus : Option String
  lastChecked : Option Int
  confirmations : Option Int
  deriving Repr, DecidableEq

/-- Applying an update patch to a submission row.  `active` is never part of
any patch the poller issues, so it is always carried over. -/
def applyPatch (s : TransactionSubmission) (p : SubPatch) : TransactionSubmission :=
  { s with
    currentStatus := match p.currentStatus with | some v => some v | none => s.currentStatus
    lastChecked := match p.lastChecked with | some v => some v | none => s.lastChecked
    confirmations := p.confirmations.getD s.confirmations }

/-- The notification-bus events the watcher emits. -/
inductive EmitEvent where
  | newTransactions (address : String) (count : Nat) (transactions : List String)
  | transactionConfirmed (txHash : String) (blockHeight : Int) (confirmations : Int)
  deriving Repr, DecidableEq

/-- One observable effect of a scan: a provider query, a persisted insert or
update (effects inside a failed `cds.tx` are rolled back and therefore never
appear), or a notification emit. -/
inductive Effect where
  | fetchProvider (address : String) (sinceBlock : Option Int)
  | insertEvent (e : BlockchainEvent)
  | insertTxRow (t : TransactionRow)
  | updateCheckpoint (address : String) (blk : Int)
  | updateSubmission (txHash : String) (p : SubPatch)
  | emit (ev : EmitEvent)
  deriving Repr, DecidableEq

/-! ### Trace observers -/

/-- The `BlockchainEvent` rows a trace inserts, in order. -/
def eventsInserted (tr : List Effect) : List BlockchainEvent :=
  tr.filterMap (fun ef => match ef with | .insertEvent e => some e | _ => none)

/-- The `Transaction` rows a trace inserts, in order. -/
def txRowsInserted (tr : List Effect) : List TransactionRow :=
  tr.filterMap (fun ef => match ef with | .insertTxRow t => some t | _ => none)

/-- The checkpoint writes of a trace: `(address, newLastCheckedBlock)` pairs. -/
def checkpointWrites (tr : List Effect) : List (String × Int) :=
  tr.filterMap (fun ef => match ef with | .updateCheckpoint a b => some (a, b) | _ => none)

/-- The submission updates of a trace: `(txHash, patch)` pairs. -/
def submissionUpdates (tr : List Effect) : List (String × SubPatch) :=
  tr.filterMap (fun ef => match ef with | .updateSubmission h p => some (h, p) | _ => none)

/-- The notifications a trace emits, in order. -/
def emits (tr : List Effect) : List EmitEvent :=
  tr.filterMap (fun ef => match ef with | .emit ev => some ev | _ => none)

/-- The provider queries of a trace: `(address, sinceBlock)` pairs. -/
def fetchCalls (tr : List Effect) : List (String × Option Int) :=
  tr.filterMap (fun ef => match ef with | .fetchProvider a s => some (a, s) | _ => none)

/-! ## Address poller (`src/watcher.ts`) -/

/-- `Math.max(...transactions.map(t => t.blockNumber))`; only ever evaluated
on a non-empty list in the source. -/
def maxBlock (txs : List TransactionData) : Int :=
  match txs with
  | [] => 0
  | t :: ts => ts.foldl (fun acc x => max acc x.blockNumber) t.blockNumber

/-- The `BlockchainEvent` row `processAddress` inserts for one summary. -/
def mkAddressEvent (net : String) (a : WatchedAddress) (t : TransactionData) :
    BlockchainEvent :=
  { type := "TRANSACTION"
    blockNumber := some t.blockNumber
    blockHash := some t.blockHash
    txHash := some t.txHash
    address_address := some a.address
    submission_txHash := none
    payload := .txData t
    network := net
    processed := false }

/-- The `Transaction` row `processAddress` inserts for one summary. -/
def mkTxRow (net : String) (t : TransactionData) : TransactionRow :=
  { txHash := t.txHash
    blockNumber := t.blockNumber
    blockHash := t.blockHash
    sender := t.sender
    receiver := t.receiver
    amount := t.amount
    fee := t.fee
    metadata := t.metadata
    assets := t.assets
    status := "CONFIRMED"
    network := net }

/-- The per-summary inserts of the `cds.tx` block of `processAddress`: one
`BlockchainEvent` insert and one `Transaction` insert per summary, in order. -/
def insertPairs (net : String) (a : WatchedAddress) (txs : List TransactionData) :
    List Effect :=
  txs.flatMap (fun t => [.insertEvent (mkAddressEvent net a t), .insertTxRow (mkTxRow net t)])

/-- The body of the `cds.tx` block of `processAddress`: per summary one
`BlockchainEvent` insert and one `Transaction` insert, then a single
checkpoint update to the maximum block height. -/
def persistBatch (net : String) (a : WatchedAddress) (txs : List TransactionData) :
    List Effect :=
  insertPairs net a txs ++ [.updateCheckpoint a.address (maxBlock txs)]

/-- The result of processing one watched address: the ordered effect trace
and the detected-event count the function returns. -/
structure AddrResult where
  trace : List Effect
  ret : Nat
  deriving Repr, DecidableEq

/-- `processAddress` from `src/watcher.ts`.  `available` is
`blockfrost.isAvailable()`; `provider` is the provider call
(`Except.error` models it throwing), invoked with the address's
`lastCheckedBlock`; `persistOk` tells whether the `cds.tx` block commits
(on failure its inserts and the checkpoint write are rolled back and the
surrounding `catch` swallows the error — but `eventsDetected` was already
set before the transaction, so the count is still returned).  The emit
happens only after the transaction resolved. -/
def processAddress (net : String) (available : Bool)
    (provider : Option Int → Except Unit (List TransactionData))
    (persistOk : Bool) (a : WatchedAddress) : AddrResult :=
  if available then
    match provider a.lastCheckedBlock with
    | .error _ => ⟨[.fetchProvider a.address a.lastCheckedBlock], 0⟩
    | .ok [] => ⟨[.fetchProvider a.address a.lastCheckedBlock], 0⟩
    | .ok (t :: ts) =>
      let txs := t :: ts
      if persistOk then
        ⟨.fetchProvider a.address a.lastCheckedBlock ::
            (persistBatch net a txs ++
              [.emit (.newTransactions a.address txs.length (txs.map (·.txHash)))]),
          txs.length⟩
      else
        ⟨[.fetchProvider a.address a.lastCheckedBlock], txs.length⟩
  else
    ⟨[], 0⟩

/-- `pollWatchedAddresses`: selects the active watched addresses and
processes each, summing the detected-event counts.  The per-address provider
outcome and persistence outcome are supplied per address. -/
def pollWatchedAddresses (net : String) (available : Bool)
    (provider : String → Option Int → Except Unit (List TransactionData))
    (persistOkOf : String → Bool) (addrs : List WatchedAddress) : AddrResult :=
  (addrs.filter (·.active)).foldl
    (fun acc a =>
      let r := processAddress net available (provider a.address) (persistOkOf a.address) a
      ⟨acc.trace ++ r.trace, acc.ret + r.ret⟩)
    ⟨[], 0⟩

/-! ## Transaction poller (`src/watcher.ts`) -/

/-- `wasPending`: `submission.currentStatus === "PENDING" || !submission.currentStatus`
(a null or empty status counts as pending). -/
def wasPending (cs : Option String) : Bool :=
  cs == some "PENDING" || !strTruthy cs

/-- The `BlockchainEvent` row the confirmation transition inserts. -/
def mkFoundEvent (net : String) (s : TransactionSubmission) (info : TransactionInfo)
    (confs : Int) (now : Int) : BlockchainEvent :=
  { type := "TX_CONFIRMED"
    blockNumber := some info.blockHeight
    blockHash := some info.blockHash
    txHash := some s.txHash
    address_address := none
    submission_txHash := some s.txHash
    payload := .found now info.blockHeight confs
    network := net
    processed := false }

/-- The result of processing one submission: the trace, the submission row
after the updates, and the detected-event count. -/
structure SubResult where
  trace : List Effect
  sub : TransactionSubmission
  ret : Nat
  deriving Repr, DecidableEq

/-- `processTransactionSubmission` from `src/watcher.ts`.  `lookup` is the
`blockfrost.getTransaction` result (`none` = not in the network yet), `now`
the current timestamp.  Not found: stamp `lastChecked` and keep status
`PENDING`.  Found while still pending: set status `CONFIRMED` with the
recomputed confirmation count, insert one `TX_CONFIRMED` event and emit one
`transactionConfirmed` notification.  Found but no longer pending: only
stamp `lastChecked` and refresh `confirmations`.  The `active` column is
never written. -/
def processTransactionSubmission (net : String) (lookup : Option TransactionInfo)
    (now : Int) (s : TransactionSubmission) : SubResult :=
  match lookup with
  | none =>
    let p : SubPatch := ⟨some "PENDING", some now, none⟩
    ⟨[.updateSubmission s.txHash p], applyPatch s p, 0⟩
  | some info =>
    let confs := if info.confirmations == 0 then 0 else info.confirmations
    if wasPending s.currentStatus then
      let p : SubPatch := ⟨some "CONFIRMED", some now, some confs⟩
      ⟨[.updateSubmission s.txHash p,
        .insertEvent (mkFoundEvent net s info confs now),
        .emit (.transactionConfirmed s.txHash info.blockHeight confs)],
        applyPatch s p, 1⟩
    else
      let p : SubPatch := ⟨none, some now, some confs⟩
      ⟨[.updateSubmission s.txHash p], applyPatch s p, 0⟩

/-- `pollTransactionSubmissions`: selects the active submissions and
processes each, summing the detected-event counts. -/
def pollTransactionSubmissions (net : String)
    (lookupOf : String → Option TransactionInfo) (now : Int)
    (subs : List TransactionSubmission) : AddrResult :=
  (subs.filter (·.active)).foldl
    (fun acc s =>
      let r := processTransactionSubmission net (lookupOf s.txHash) now s
      ⟨acc.trace ++ r.trace, acc.ret + r.ret⟩)
    ⟨[], 0⟩

/-- `manualPoll`: one scan of both paths, returning the combined count. -/
def manualPoll (net : String) (available : Bool)
    (provider : String → Option Int → Except Unit (List TransactionData))
    (persistOkOf : String → Bool) (addrs : List WatchedAddress)
    (lookupOf : String → Option TransactionInfo) (now : Int)
    (subs : List TransactionSubmission) : Nat :=
  (pollWatchedAddresses net available provider persistOkOf addrs).ret +
    (pollTransactionSubmissions net lookupOf now subs).ret

/-! ## Watcher supervisor (`src/watcher.ts` module state, `setup`/`start`) -/

/-- The polling-path configuration (`{enabled, interval}`). -/
structure PollingConfig where
  enabled : Bool
  interval : Int
  deriving Repr, DecidableEq

/-- The watcher configuration as `setup`/`start` read it. -/
structure Config where
  blockfrostApiKey : Option String
  blockfrostProjectId : Option String
  network : String
  autoStart : Bool
  addressPolling : Option PollingConfig
  transactionPolling : Option PollingConfig
  deriving Repr, DecidableEq

/-- `cfg.addressPolling?.enabled` / `cfg.transactionPolling?.enabled`. -/
def pollingEnabled : Option PollingConfig → Bool
  | none => false
  | some p => p.enabled

/-- The module-level mutable state of `src/watcher.ts` together with the
Node process state the module touches: whether the Blockfrost client has
been created, how many handlers are currently registered for each
termination signal (`process.on` appends one per call), and the running
flags.  Timer handles and the scans an immediate poll performs are outside
this state. -/
structure WatcherState where
  blockfrostClient : Bool
  sigtermHandlers : Nat
  sigintHandlers : Nat
  isRunning : Bool
  addressPollingActive : Bool
  transactionPollingActive : Bool
  deriving Repr, DecidableEq

/-- The initial module state of a fresh process. -/
def initialWatcherState : WatcherState :=
  ⟨false, 0, 0, false, false, false⟩

/-- `blockfrost.initializeClient`: guarded, keeps an existing client. -/
def initializeClient (s : WatcherState) : WatcherState :=
  if s.blockfrostClient then s else { s with blockfrostClient := true }

/-- `startAddressPolling`: a no-op when already active, otherwise sets the
flag (the timer and the immediate poll are outside the modelled state). -/
def startAddressPolling (s : WatcherState) : WatcherState :=
  if s.addressPollingActive then s else { s with addressPollingActive := true }

/-- `startTransactionPolling`: a no-op when already active. -/
def startTransactionPolling (s : WatcherState) : WatcherState :=
  if s.transactionPollingActive then s else { s with transactionPollingActive := true }

/-- `start()`: warns and returns when already running; otherwise sets the
running flag and starts each enabled polling path. -/
def start (cfg : Config) (s : WatcherState) : WatcherState :=
  if s.isRunning then s
  else
    let s := { s with isRunning := true }
    let s := if pollingEnabled cfg.addressPolling then startAddressPolling s else s
    if pollingEnabled cfg.transactionPolling then startTransactionPolling s else s

/-- `setup()` from `src/watcher.ts`: initializes the Blockfrost client when
an API key or project id is configured, registers one `SIGTERM` and one
`SIGINT` handler — unconditionally, on every call — and auto-starts when
configured. -/
def setup (cfg : Config) (s : WatcherState) : WatcherState :=
  let s :=
    if strTruthy cfg.blockfrostApiKey || strTruthy cfg.blockfrostProjectId then
      initializeClient s
    else s
  let s := { s with
    sigtermHandlers := s.sigtermHandlers + 1
    sigintHandlers := s.sigintHandlers + 1 }
  if cfg.autoStart then start cfg s else s

/-! ## Shared lemmas about traces -/

theorem eventsInserted_append (t1 t2 : List Effect) :
    eventsInserted (t1 ++ t2) = eventsInserted t1 ++ eventsInserted t2 := by
  simp [eventsInserted, List.filterMap_append]

theorem emits_append (t1 t2 : List Effect) :
    emits (t1 ++ t2) = emits t1 ++ emits t2 := by
  simp [emits, List.filterMap_append]

theorem checkpointWrites_append (t1 t2 : List Effect) :
    checkpointWrites (t1 ++ t2) = checkpointWrites t1 ++ checkpointWrites t2 := by
  simp [checkpointWrites, List.filterMap_append]

theorem fetchCalls_append (t1 t2 : List Effect) :
    fetchCalls (t1 ++ t2) = fetchCalls t1 ++ fetchCalls t2 := by
  simp [fetchCalls, List.filterMap_append]

theorem insertPairs_cons (net : String) (a : WatchedAddress) (t : TransactionData)
    (ts : List TransactionData) :
    insertPairs net a (t :: ts) =
      .insertEvent (mkAddressEvent net a t) :: .insertTxRow (mkTxRow net t) ::
        insertPairs net a ts := by
  simp [insertPairs]

theorem eventsInserted_insertPairs (net : String) (a : WatchedAddress)
    (txs : List TransactionData) :
    eventsInserted (insertPairs net a txs) = txs.map (mkAddressEvent net a) := by
  induction txs with
  | nil => rfl
  | cons t ts ih =>
    rw [insertPairs_cons]
    simp only [eventsInserted, List.filterMap_cons] at ih ⊢
    rw [ih, List.map_cons]

theorem emits_insertPairs (net : String) (a : WatchedAddress)
    (txs : List TransactionData) :
    emits (insertPairs net a txs) = [] := by
  induction txs with
  | nil => rfl
  | cons t ts ih =>
    rw [insertPairs_cons]
    simp only [emits, List.filterMap_cons] at ih ⊢
    rw [ih]

theorem checkpointWrites_insertPairs (net : String) (a : WatchedAddress)
    (txs : List TransactionData) :
    checkpointWrites (insertPairs net a txs) = [] := by
  induction txs with
  | nil => rfl
  | cons t ts ih =>
    rw [insertPairs_cons]
    simp only [checkpointWrites, List.filterMap_cons] at ih ⊢
    rw [ih]

theorem fetchCalls_insertPairs (net : String) (a : WatchedAddress)
    (txs : List TransactionData) :
    fetchCalls (insertPairs net a txs) = [] := by
  induction txs with
  | nil => rfl
  | cons t ts ih =>
    rw [insertPairs_cons]
    simp only [fetchCalls, List.filterMap_cons] at ih ⊢
    rw [ih]

theorem eventsInserted_persistBatch (net : String) (a : WatchedAddress)
    (txs : List TransactionData) :
    eventsInserted (persistBatch net a txs) = txs.map (mkAddressEvent net a) := by
  rw [persistBatch, eventsInserted_append, eventsInserted_insertPairs]
  simp [eventsInserted, List.filterMap_cons]

theorem emits_persistBatch (net : String) (a : WatchedAddress)
    (txs : List TransactionData) :
    emits (persistBatch net a txs) = [] := by
  rw [persistBatch, emits_append, emits_insertPairs]
  simp [emits, List.filterMap_cons]

theorem checkpointWrites_persistBatch (net : String) (a : WatchedAddress)
    (txs : List TransactionData) :
    checkpointWrites (persistBatch net a txs) = [(a.address, maxBlock txs)] := by
  rw [persistBatch, checkpointWrites_append, checkpointWrites_insertPairs]
  simp [checkpointWrites, List.filterMap_cons]

theorem fetchCalls_persistBatch (net : String) (a : WatchedAddress)
    (txs : List TransactionData) :
    fetchCalls (persistBatch net a txs) = [] := by
  rw [persistBatch, fetchCalls_append, fetchCalls_insertPairs]
  simp [fetchCalls, List.filterMap_cons]

/-- The trace of a successful non-empty address scan, in closed form. -/
theorem processAddress_trace_ok (net : String)
    (provider : Option Int → Except Unit (List TransactionData))
    (a : WatchedAddress) (t : TransactionData) (ts : List TransactionData)
    (hfetch : provider a.lastCheckedBlock = .ok (t :: ts)) :
    processAddress net true provider true a =
      ⟨.fetchProvider a.address a.lastCheckedBlock ::
          (persistBatch net a (t :: ts) ++
            [.emit (.newTransactions a.address (t :: ts).length ((t :: ts).map (·.txHash)))]),
        (t :: ts).length⟩ := by
  simp [processAddress, hfetch]

/-- The trace of a non-empty address scan whose persistence fails, in
closed form: the count is kept, nothing is persisted, nothing is emitted. -/
theorem processAddress_trace_persist_fail (net : String)
    (provider : Option Int → Except Unit (List TransactionData))
    (a : WatchedAddress) (t : TransactionData) (ts : List TransactionData)
    (hfetch : provider a.lastCheckedBlock = .ok (t :: ts)) :
    processAddress net true provider false a =
      ⟨[.fetchProvider a.address a.lastCheckedBlock], (t :: ts).length⟩ := by
  simp [processAddress, hfetch]

theorem eventsInserted_cons_fetch (ad : String) (sb : Option Int) (tr : List Effect) :
    eventsInserted (.fetchProvider ad sb :: tr) = eventsInserted tr := by
  simp [eventsInserted, List.filterMap_cons]

theorem emits_cons_fetch (ad : String) (sb : Option Int) (tr : List Effect) :
    emits (.fetchProvider ad sb :: tr) = emits tr := by
  simp [emits, List.filterMap_cons]

theorem checkpointWrites_cons_fetch (ad : String) (sb : Option Int) (tr : List Effect) :
    checkpointWrites (.fetchProvider ad sb :: tr) = checkpointWrites tr := by
  simp [checkpointWrites, List.filterMap_cons]

theorem fetchCalls_cons_fetch (ad : String) (sb : Option Int) (tr : List Effect) :
    fetchCalls (.fetchProvider ad sb :: tr) = (ad, sb) :: fetchCalls tr := by
  simp [fetchCalls, List.filterMap_cons]

theorem eventsInserted_emit_singleton (ev : EmitEvent) :
    eventsInserted [.emit ev] = [] := rfl

theorem emits_emit_singleton (ev : EmitEvent) : emits [.emit ev] = [ev] := rfl

theorem checkpointWrites_emit_singleton (ev : EmitEvent) :
    checkpointWrites [.emit ev] = [] := rfl

theorem fetchCalls_emit_singleton (ev : EmitEvent) : fetchCalls [.emit ev] = [] := rfl

/-! ## Concrete sample data used by witnesses and counterexamples -/

/-- A minimal transaction summary at a given hash and block height. -/
def sampleTx (h : String) (n : Int) : TransactionData :=
  ⟨h, n, "bh-" ++ h, none, none, 0, 0, none, [], none⟩

/-- The spec's scenario address: checkpoint 1000, active. -/
def scenarioAddr : WatchedAddress :=
  ⟨"addr_test1abc", none, true, some 1000, "preview"⟩

/-- The spec's scenario provider answer: two transactions at heights 1001
and 1003. -/
def scenarioProvider : Option Int → Except Unit (List TransactionData) :=
  fun _ => .ok [sampleTx "tx1" 1001, sampleTx "tx2" 1003]

/-- A freshly added address: active, `lastCheckedBlock` null. -/
def freshAddr : WatchedAddress :=
  ⟨"addr_test1fresh", none, true, none, "preview"⟩

/-- A provider answer with a single transaction at height 42. -/
def singleTxProvider : Option Int → Except Unit (List TransactionData) :=
  fun _ => .ok [sampleTx "tx42" 42]

/-! ## Claim C1 — address scan: per-summary events, single checkpoint write,
one emit after persistence -/

/-- Claim C1: when the provider returns a non-empty list of summaries for an
active watched address, `processAddress` inserts one `BlockchainEvent` of
type `TRANSACTION` per summary, advances the checkpoint to the maximum block
height among the summaries in a single write, and emits exactly one
`newTransactions` notification with the address, the count and the hash
list — strictly after persistence succeeded (the whole persisted batch
precedes the emit in the trace, and a failing persistence emits nothing).
The returned count is the number of summaries. -/
theorem C1_address_scan (net : String)
    (provider : Option Int → Except Unit (List TransactionData))
    (a : WatchedAddress) (txs : List TransactionData)
    (hfetch : provider a.lastCheckedBlock = .ok txs) (hne : txs ≠ []) :
    eventsInserted (processAddress net true provider true a).trace =
        txs.map (mkAddressEvent net a)
      ∧ (∀ e ∈ eventsInserted (processAddress net true provider true a).trace,
          e.type = "TRANSACTION")
      ∧ checkpointWrites (processAddress net true provider true a).trace =
          [(a.address, maxBlock txs)]
      ∧ emits (processAddress net true provider true a).trace =
          [.newTransactions a.address txs.length (txs.map (·.txHash))]
      ∧ (∃ pre,
          (processAddress net true provider true a).trace =
              pre ++ [.emit (.newTransactions a.address txs.length (txs.map (·.txHash)))]
            ∧ eventsInserted pre = txs.map (mkAddressEvent net a)
            ∧ checkpointWrites pre = [(a.address, maxBlock txs)])
      ∧ emits (processAddress net true provider false a).trace = []
      ∧ (processAddress net true provider true a).ret = txs.length := by
  obtain ⟨t, ts, rfl⟩ : ∃ t ts, txs = t :: ts := by
    cases txs with
    | nil => exact absurd rfl hne
    | cons t ts => exact ⟨t, ts, rfl⟩
  have htr := processAddress_trace_ok net provider a t ts hfetch
  have hfail := processAddress_trace_persist_fail net provider a t ts hfetch
  refine ⟨?_, ?_, ?_, ?_, ?_, ?_, ?_⟩
  · rw [htr]
    simp only [eventsInserted_cons_fetch, eventsInserted_append,
      eventsInserted_persistBatch, eventsInserted_emit_singleton, List.append_nil]
  · intro e he
    rw [htr] at he
    simp only [eventsInserted_cons_fetch, eventsInserted_append,
      eventsInserted_persistBatch, eventsInserted_emit_singleton, List.append_nil,
      List.mem_map] at he
    obtain ⟨x, _, rfl⟩ := he
    rfl
  · rw [htr]
    simp only [checkpointWrites_cons_fetch, checkpointWrites_append,
      checkpointWrites_persistBatch, checkpointWrites_emit_singleton, List.append_nil]
  · rw [htr]
    simp only [emits_cons_fetch, emits_append, emits_persistBatch,
      emits_emit_singleton, List.nil_append]
  · refine ⟨.fetchProvider a.address a.lastCheckedBlock :: persistBatch net a (t :: ts),
      ?_, ?_, ?_⟩
    · rw [htr]
      simp [List.cons_append]
    · rw [eventsInserted_cons_fetch, eventsInserted_persistBatch]
    · rw [checkpointWrites_cons_fetch, checkpointWrites_persistBatch]
  · rw [hfail]
    rfl
  · rw [htr]

/-- Witness for C1 at the spec's scenario: checkpoint 1000, transactions at
heights 1001 and 1003 — two event rows, checkpoint written once to 1003,
one emit with count 2. -/
theorem C1_address_scan_witness :
    (eventsInserted (processAddress "preview" true scenarioProvider true
        scenarioAddr).trace).length = 2
      ∧ checkpointWrites (processAddress "preview" true scenarioProvider true
          scenarioAddr).trace = [("addr_test1abc", 1003)]
      ∧ emits (processAddress "preview" true scenarioProvider true scenarioAddr).trace =
          [.newTransactions "addr_test1abc" 2 ["tx1", "tx2"]] := by
  obtain ⟨h1, _, h3, h4, _⟩ :=
    C1_address_scan "preview" scenarioProvider scenarioAddr
      [sampleTx "tx1" 1001, sampleTx "tx2" 1003] rfl (by simp)
  exact ⟨by rw [h1]; rfl, h3, h4⟩

/-! ## Claim C9 — persistence failure still reported in the count -/

/-- Claim C9: when the provider returns `N > 0` summaries but the persistence
transaction fails, `processAddress` still returns `N` — the count is fixed
before persistence and not reset by the caught error — while nothing is
inserted, no checkpoint is written and nothing is emitted; the totals of
`pollWatchedAddresses` and `manualPoll` therefore include the never-persisted
events. -/
theorem C9_persist_failure_counted (net : String)
    (provider : Option Int → Except Unit (List TransactionData))
    (a : WatchedAddress) (txs : List TransactionData)
    (hactive : a.active = true)
    (hfetch : provider a.lastCheckedBlock = .ok txs) (hne : txs ≠ []) :
    (processAddress net true provider false a).ret = txs.length
      ∧ eventsInserted (processAddress net true provider false a).trace = []
      ∧ checkpointWrites (processAddress net true provider false a).trace = []
      ∧ emits (processAddress net true provider false a).trace = []
      ∧ (pollWatchedAddresses net true (fun _ => provider) (fun _ => false) [a]).ret =
          txs.length
      ∧ manualPoll net true (fun _ => provider) (fun _ => false) [a]
          (fun _ => none) 0 [] = txs.length := by
  obtain ⟨t, ts, rfl⟩ : ∃ t ts, txs = t :: ts := by
    cases txs with
    | nil => exact absurd rfl hne
    | cons t ts => exact ⟨t, ts, rfl⟩
  have hfail := processAddress_trace_persist_fail net provider a t ts hfetch
  refine ⟨by rw [hfail], by rw [hfail]; rfl, by rw [hfail]; rfl, by rw [hfail]; rfl, ?_, ?_⟩
  · simp [pollWatchedAddresses, hactive, hfail]
  · simp [manualPoll, pollWatchedAddresses, pollTransactionSubmissions, hactive, hfail]

/-- Witness for C9: one address, provider finds one transaction, persistence
fails — the reported count is 1 while the trace persists and emits nothing. -/
theorem C9_persist_failure_counted_witness :
    (processAddress "preview" true singleTxProvider false freshAddr).ret = 1
      ∧ eventsInserted (processAddress "preview" true singleTxProvider false
          freshAddr).trace = []
      ∧ manualPoll "preview" true (fun _ => singleTxProvider) (fun _ => false)
          [freshAddr] (fun _ => none) 0 [] = 1 := by
  obtain ⟨h1, h2, _, _, _, h6⟩ :=
    C9_persist_failure_counted "preview" singleTxProvider freshAddr
      [sampleTx "tx42" 42] rfl rfl (by simp)
  exact ⟨h1, h2, h6⟩

/-! ## Claim C5 — null checkpoint: the poller does NOT skip the address -/

/-- Claim C5 (as stated, refuted): the claim says an active address with a
null `lastCheckedBlock` is skipped — no provider fetch, no insert, no
checkpoint write, no emit.  On the code, `processAddress` passes the null
checkpoint straight to the provider and processes everything returned:
here an active address with a null checkpoint is fetched (with `sinceBlock`
null), one event is inserted, the checkpoint is written and a notification
is emitted. -/
theorem C5_counterexample :
    freshAddr.active = true
      ∧ freshAddr.lastCheckedBlock = none
      ∧ fetchCalls (processAddress "preview" true singleTxProvider true
          freshAddr).trace = [("addr_test1fresh", none)]
      ∧ eventsInserted (processAddress "preview" true singleTxProvider true
          freshAddr).trace ≠ []
      ∧ checkpointWrites (processAddress "preview" true singleTxProvider true
          freshAddr).trace ≠ []
      ∧ emits (processAddress "preview" true singleTxProvider true
          freshAddr).trace ≠ [] := by
  refine ⟨rfl, rfl, by decide, by decide, by decide, by decide⟩

/-- Claim C5 as amended: an active watched address with a null
`lastCheckedBlock` is not skipped — the poller queries the provider once
with a null `sinceBlock` (so no block filter applies on the provider side),
inserts one event per returned summary, seeds the checkpoint with the
maximum returned height in a single write, and emits one `newTransactions`
notification. -/
theorem C5_null_checkpoint_processed (net : String)
    (provider : Option Int → Except Unit (List TransactionData))
    (a : WatchedAddress) (txs : List TransactionData)
    (hactive : a.active = true) (hnull : a.lastCheckedBlock = none)
    (hfetch : provider none = .ok txs) (hne : txs ≠ []) :
    fetchCalls (processAddress net true provider true a).trace = [(a.address, none)]
      ∧ eventsInserted (processAddress net true provider true a).trace =
          txs.map (mkAddressEvent net a)
      ∧ checkpointWrites (processAddress net true provider true a).trace =
          [(a.address, maxBlock txs)]
      ∧ emits (processAddress net true provider true a).trace =
          [.newTransactions a.address txs.length (txs.map (·.txHash))]
      ∧ (processAddress net true provider true a).ret = txs.length := by
  obtain ⟨t, ts, rfl⟩ : ∃ t ts, txs = t :: ts := by
    cases txs with
    | nil => exact absurd rfl hne
    | cons t ts => exact ⟨t, ts, rfl⟩
  have hfetch' : provider a.lastCheckedBlock = .ok (t :: ts) := by rw [hnull, hfetch]
  have htr := processAddress_trace_ok net provider a t ts hfetch'
  refine ⟨?_, ?_, ?_, ?_, by rw [htr]⟩
  · rw [htr, hnull]
    simp only [fetchCalls_cons_fetch, fetchCalls_append, fetchCalls_persistBatch,
      fetchCalls_emit_singleton, List.append_nil]
  · rw [htr]
    simp only [eventsInserted_cons_fetch, eventsInserted_append,
      eventsInserted_persistBatch, eventsInserted_emit_singleton, List.append_nil]
  · rw [htr]
    simp only [checkpointWrites_cons_fetch, checkpointWrites_append,
      checkpointWrites_persistBatch, checkpointWrites_emit_singleton, List.append_nil]
  · rw [htr]
    simp only [emits_cons_fetch, emits_append, emits_persistBatch,
      emits_emit_singleton, List.nil_append]

/-- Witness for the amended C5: the fresh null-checkpoint address with one
found transaction at height 42 is processed, not skipped. -/
theorem C5_null_checkpoint_processed_witness :
    fetchCalls (processAddress "preview" true singleTxProvider true freshAddr).trace =
        [("addr_test1fresh", none)]
      ∧ checkpointWrites (processAddress "preview" true singleTxProvider true
          freshAddr).trace = [("addr_test1fresh", 42)]
      ∧ (processAddress "preview" true singleTxProvider true freshAddr).ret = 1 := by
  obtain ⟨h1, _, h3, _, h5⟩ :=
    C5_null_checkpoint_processed "preview" singleTxProvider freshAddr
      [sampleTx "tx42" 42] rfl rfl rfl (by simp)
  exact ⟨h1, h3, h5⟩

/-! ## Transaction-poller lemmas and claims C2, C3, C10 -/

theorem wasPending_pending : wasPending (some "PENDING") = true := by decide

theorem wasPending_confirmed : wasPending (some "CONFIRMED") = false := by decide

/-- The JS `c || 0` idiom is the identity on an `Int`-valued field. -/
theorem jsOrZero_int (c : Int) : (if c == 0 then (0 : Int) else c) = c := by
  by_cases h : c = 0 <;> simp [h]

/-- Propositional form of `jsOrZero_int`. -/
theorem jsOrZero_int_prop (c : Int) : (if c = 0 then (0 : Int) else c) = c := by
  by_cases h : c = 0 <;> simp [h]

/-- Running the transaction scan twice in a row over the same store row:
the second run starts from the row state the first run left behind. -/
def scanSubmissionTwice (net : String) (l1 l2 : Option TransactionInfo)
    (t1 t2 : Int) (s : TransactionSubmission) : SubResult × SubResult :=
  let r1 := processTransactionSubmission net l1 t1 s
  (r1, processTransactionSubmission net l2 t2 r1.sub)

/-- A pending tracked submission, used by witnesses. -/
def pendingSub2 : TransactionSubmission := ⟨"tx_c2", true, some "PENDING", 0, none⟩

/-- The provider result finding `pendingSub2` at height 5000 with 3
confirmations. -/
def foundInfo2 : TransactionInfo := ⟨"tx_c2", "bh5000", 5000, 0, 0, 3, 0⟩

/-- A second pending tracked submission, for the twice-run scenario. -/
def pendingSub3 : TransactionSubmission := ⟨"tx_c3", true, some "PENDING", 0, none⟩

/-- The provider result finding `pendingSub3` at height 600 with 2
confirmations. -/
def foundInfo3 : TransactionInfo := ⟨"tx_c3", "bh600", 600, 0, 0, 2, 0⟩

/-- An already-confirmed but still active submission. -/
def confirmedSub10 : TransactionSubmission := ⟨"tx_c10", true, some "CONFIRMED", 3, some 1⟩

/-- The provider result finding `confirmedSub10` at height 700 with 9
confirmations. -/
def foundInfo10 : TransactionInfo := ⟨"tx_c10", "bh700", 700, 0, 0, 9, 0⟩

/-- Claim C2 (as stated, refuted): the claim says the confirmation
transition flips the submission's `active` flag to false.  On the code the
transition happens — status becomes `CONFIRMED`, one event is detected —
but `active` is never written and stays true. -/
theorem C2_counterexample :
    (processTransactionSubmission "preview" (some foundInfo2) 7 pendingSub2).ret = 1
      ∧ (processTransactionSubmission "preview" (some foundInfo2) 7
          pendingSub2).sub.currentStatus = some "CONFIRMED"
      ∧ ¬((processTransactionSubmission "preview" (some foundInfo2) 7
          pendingSub2).sub.active = false) := by
  refine ⟨by decide, by decide, by decide⟩

/-- Claim C2 as amended: for a pending submission the provider finds, the
poller inserts one `BlockchainEvent` referencing the submission with block
height/hash and the confirmation count in the payload, updates the status
to `CONFIRMED`, and emits one `transactionConfirmed` notification with
hash, block height and confirmation count; the `active` flag is left
unchanged (re-processing is prevented by the status guard, not by
deactivation). -/
theorem C2_confirmation_transition (net : String) (now : Int)
    (s : TransactionSubmission) (info : TransactionInfo)
    (hp : s.currentStatus = some "PENDING") :
    eventsInserted (processTransactionSubmission net (some info) now s).trace =
        [mkFoundEvent net s info info.confirmations now]
      ∧ (mkFoundEvent net s info info.confirmations now).payload =
          .found now info.blockHeight info.confirmations
      ∧ (mkFoundEvent net s info info.confirmations now).blockNumber = some info.blockHeight
      ∧ (mkFoundEvent net s info info.confirmations now).blockHash = some info.blockHash
      ∧ (mkFoundEvent net s info info.confirmations now).submission_txHash = some s.txHash
      ∧ (processTransactionSubmission net (some info) now s).sub.currentStatus =
          some "CONFIRMED"
      ∧ (processTransactionSubmission net (some info) now s).sub.active = s.active
      ∧ emits (processTransactionSubmission net (some info) now s).trace =
          [.transactionConfirmed s.txHash info.blockHeight info.confirmations]
      ∧ (processTransactionSubmission net (some info) now s).ret = 1 := by
  have hw : wasPending s.currentStatus = true := by rw [hp]; exact wasPending_pending
  refine ⟨?_, rfl, rfl, rfl, rfl, ?_, ?_, ?_, ?_⟩ <;>
    simp [processTransactionSubmission, hw, jsOrZero_int, jsOrZero_int_prop, applyPatch,
      eventsInserted, emits, List.filterMap_cons]

/-- Witness for the amended C2: the spec's scenario submission (`PENDING`,
found at height 5000 with 3 confirmations) transitions to `CONFIRMED` and
emits once; `active` stays what it was. -/
theorem C2_confirmation_transition_witness :
    (processTransactionSubmission "preview" (some foundInfo2) 7
        pendingSub2).sub.currentStatus = some "CONFIRMED"
      ∧ (processTransactionSubmission "preview" (some foundInfo2) 7
          pendingSub2).sub.active = pendingSub2.active
      ∧ emits (processTransactionSubmission "preview" (some foundInfo2) 7
          pendingSub2).trace = [.transactionConfirmed "tx_c2" 5000 3] := by
  obtain ⟨_, _, _, _, _, h6, h7, h8, _⟩ :=
    C2_confirmation_transition "preview" 7 pendingSub2 foundInfo2 rfl
  exact ⟨h6, h7, h8⟩

/-- Claim C3 (as stated, refuted): the claim includes that the submission
becomes inactive after the first successful transition.  On the code the
first scan performs the transition (one detected event) but the submission
is still active afterwards — and still active after the second scan. -/
theorem C3_counterexample :
    (scanSubmissionTwice "preview" (some foundInfo3) (some foundInfo3)
        1 2 pendingSub3).1.ret = 1
      ∧ ¬((scanSubmissionTwice "preview" (some foundInfo3) (some foundInfo3)
          1 2 pendingSub3).1.sub.active = false)
      ∧ ¬((scanSubmissionTwice "preview" (some foundInfo3) (some foundInfo3)
          1 2 pendingSub3).2.sub.active = false) := by
  refine ⟨by decide, by decide, by decide⟩

/-- Claim C3 as amended: running the transaction scan twice in a row with
the provider returning "found" both times inserts exactly one
`BlockchainEvent` and emits exactly one `transactionConfirmed` notification
— the second scan re-inserts and re-emits nothing because the transition is
guarded by the check that the status is still `PENDING` — but the
submission remains ACTIVE after the first transition (only its status
changes to `CONFIRMED`). -/
theorem C3_idempotent_confirmation (net : String) (t1 t2 : Int)
    (s : TransactionSubmission) (info1 info2 : TransactionInfo)
    (hp : s.currentStatus = some "PENDING") (ha : s.active = true) :
    (eventsInserted (scanSubmissionTwice net (some info1) (some info2)
        t1 t2 s).1.trace).length = 1
      ∧ eventsInserted (scanSubmissionTwice net (some info1) (some info2)
          t1 t2 s).2.trace = []
      ∧ (emits (scanSubmissionTwice net (some info1) (some info2)
          t1 t2 s).1.trace).length = 1
      ∧ emits (scanSubmissionTwice net (some info1) (some info2) t1 t2 s).2.trace = []
      ∧ (eventsInserted ((scanSubmissionTwice net (some info1) (some info2)
          t1 t2 s).1.trace ++
          (scanSubmissionTwice net (some info1) (some info2) t1 t2 s).2.trace)).length = 1
      ∧ (emits ((scanSubmissionTwice net (some info1) (some info2) t1 t2 s).1.trace ++
          (scanSubmissionTwice net (some info1) (some info2) t1 t2 s).2.trace)).length = 1
      ∧ (scanSubmissionTwice net (some info1) (some info2)
          t1 t2 s).1.sub.currentStatus = some "CONFIRMED"
      ∧ (scanSubmissionTwice net (some info1) (some info2) t1 t2 s).1.sub.active = true
      ∧ (scanSubmissionTwice net (some info1) (some info2) t1 t2 s).2.sub.active = true
      ∧ (scanSubmissionTwice net (some info1) (some info2)
          t1 t2 s).2.sub.currentStatus = some "CONFIRMED" := by
  have hw1 : wasPending s.currentStatus = true := by rw [hp]; exact wasPending_pending
  refine ⟨?_, ?_, ?_, ?_, ?_, ?_, ?_, ?_, ?_, ?_⟩ <;>
    simp [scanSubmissionTwice, processTransactionSubmission, hw1, wasPending_confirmed,
      applyPatch, ha, eventsInserted, emits, eventsInserted_append, emits_append,
      List.filterMap_cons, List.filterMap_append]

/-- Witness for the amended C3: the twice-run on `pendingSub3` inserts once,
emits once, and leaves the submission active and `CONFIRMED`. -/
theorem C3_idempotent_confirmation_witness :
    (eventsInserted (scanSubmissionTwice "preview" (some foundInfo3) (some foundInfo3)
        1 2 pendingSub3).1.trace).length = 1
      ∧ eventsInserted (scanSubmissionTwice "preview" (some foundInfo3)
          (some foundInfo3) 1 2 pendingSub3).2.trace = []
      ∧ (scanSubmissionTwice "preview" (some foundInfo3) (some foundInfo3)
          1 2 pendingSub3).2.sub.active = true := by
  obtain ⟨h1, h2, _, _, _, _, _, _, h9, _⟩ :=
    C3_idempotent_confirmation "preview" 1 2 pendingSub3 foundInfo3 foundInfo3 rfl rfl
  exact ⟨h1, h2, h9⟩

/-- Claim C10: for a still-active submission whose status is a non-empty
value other than `PENDING`, a found transaction only refreshes
`lastChecked` and the confirmation count (taken from the provider result);
status and `active` stay unchanged, nothing is inserted, nothing is
emitted, and the detected-event count is 0. -/
theorem C10_nonpending_frame (net : String) (now : Int)
    (s : TransactionSubmission) (info : TransactionInfo) (v : String)
    (hactive : s.active = true) (hv : s.currentStatus = some v)
    (hv1 : v ≠ "") (hv2 : v ≠ "PENDING") :
    (processTransactionSubmission net (some info) now s).trace =
        [.updateSubmission s.txHash ⟨none, some now, some info.confirmations⟩]
      ∧ (processTransactionSubmission net (some info) now s).sub =
          { s with lastChecked := some now, confirmations := info.confirmations }
      ∧ (processTransactionSubmission net (some info) now s).sub.currentStatus =
          s.currentStatus
      ∧ (processTransactionSubmission net (some info) now s).sub.active = s.active
      ∧ eventsInserted (processTransactionSubmission net (some info) now s).trace = []
      ∧ emits (processTransactionSubmission net (some info) now s).trace = []
      ∧ (processTransactionSubmission net (some info) now s).ret = 0 := by
  have hw : wasPending s.currentStatus = false := by
    rw [hv]
    simp [wasPending, strTruthy, hv1, hv2]
  refine ⟨?_, ?_, ?_, ?_, ?_, ?_, ?_⟩ <;>
    simp [processTransactionSubmission, hw, jsOrZero_int, jsOrZero_int_prop, applyPatch,
      eventsInserted, emits, List.filterMap_cons]

/-- Witness for C10: the active `CONFIRMED` submission found again at height
700 with 9 confirmations is only refreshed. -/
theorem C10_nonpending_frame_witness :
    (processTransactionSubmission "preview" (some foundInfo10) 11 confirmedSub10).sub =
        { confirmedSub10 with lastChecked := some 11, confirmations := 9 }
      ∧ emits (processTransactionSubmission "preview" (some foundInfo10) 11
          confirmedSub10).trace = []
      ∧ (processTransactionSubmission "preview" (some foundInfo10) 11
          confirmedSub10).ret = 0 := by
  obtain ⟨_, h2, _, _, _, h6, h7⟩ :=
    C10_nonpending_frame "preview" 11 confirmedSub10 foundInfo10 "CONFIRMED"
      rfl rfl (by decide) (by decide)
  exact ⟨h2, h6, h7⟩

/-! ## Claim C6 — provider fetch: strict block filter, page cap, empty list -/

/-- With `fromBlock = 0` the filter guard is disabled (JS truthiness). -/
theorem skipByFromBlock_some_zero :
    skipByFromBlock (some 0) = fun _ => false := by
  funext h
  simp [skipByFromBlock, numTruthy]

/-- With `fromBlock = null` the filter guard is disabled. -/
theorem skipByFromBlock_none :
    skipByFromBlock none = fun _ => false := by
  funext h
  simp [skipByFromBlock, numTruthy]

/-- A provider entry at block height 0 (with full details). -/
def genesisEntry : TxEntry := ⟨"txgenesis", some ⟨0, "bh0", 0, 0, 0, none, [], []⟩⟩

/-- A provider entry at block height 10 (with full details). -/
def height10Entry : TxEntry := ⟨"tx10", some ⟨10, "bh10", 0, 0, 0, none, [], []⟩⟩

/-- A default summary for list projections in witnesses. -/
def defaultTxData : TransactionData := ⟨"", 0, "", none, none, 0, 0, none, [], none⟩

/-- Claim C6 (as stated, refuted): the claim promises that for EVERY integer
`sinceBlock` only transactions at heights strictly greater than `sinceBlock`
are returned.  With `sinceBlock = 0` the source's guard
`if (fromBlock && block_height <= fromBlock)` is disabled — `0` is falsy —
so a transaction at height 0 is returned even though `0 < 0` fails. -/
theorem C6_counterexample :
    ¬(∀ t ∈ fetchAddressTransactions [genesisEntry] (some 0), (0 : Int) < t.blockNumber) := by
  decide

/-- Claim C6 as amended: `fetchAddressTransactions` returns only
transactions strictly newer than `sinceBlock` whenever `sinceBlock` is a
NONZERO integer; `sinceBlock = 0` is treated exactly like a null
`sinceBlock` (no filtering, all known transactions of the page).  At most
100 items are fetched per call, and no activity yields an empty list rather
than an error. -/
theorem C6_fetch_contract (chain : List TxEntry) (sb : Option Int) :
    (∀ fb : Int, sb = some fb → fb ≠ 0 →
        ∀ t ∈ fetchAddressTransactions chain sb, fb < t.blockNumber)
      ∧ fetchAddressTransactions chain (some 0) = fetchAddressTransactions chain none
      ∧ (fetchAddressTransactions chain sb).length ≤ 100
      ∧ (chain = [] → fetchAddressTransactions chain sb = []) := by
  refine ⟨?_, ?_, ?_, ?_⟩
  · rintro fb rfl hfb t ht
    rw [fetchAddressTransactions] at ht
    by_cases he : (chain.take 100).isEmpty
    · simp [he] at ht
    · simp only [he, if_neg, Bool.false_eq_true, not_false_iff, if_false] at ht
      rw [List.mem_filterMap] at ht
      obtain ⟨e, _, hfe⟩ := ht
      cases hd : e.details with
      | none => rw [hd] at hfe; exact absurd hfe (by simp)
      | some d =>
        rw [hd] at hfe
        dsimp only at hfe
        by_cases hskip : skipByFromBlock (some fb) d.block_height = true
        · rw [if_pos hskip] at hfe
          cases hfe
        · rw [if_neg hskip] at hfe
          have ht' : t = parseTx e.tx_hash d := (Option.some_inj.mp hfe).symm
          have hle : ¬(d.block_height ≤ fb) := by
            intro hle
            exact hskip (by simp [skipByFromBlock, numTruthy, hfb, hle])
          rw [ht']
          simpa [parseTx] using lt_of_not_le hle
  · simp only [fetchAddressTransactions, skipByFromBlock_some_zero, skipByFromBlock_none]
  · rw [fetchAddressTransactions]
    by_cases he : (chain.take 100).isEmpty
    · simp [he]
    · simp only [he, Bool.false_eq_true, not_false_iff, if_false]
      calc ((chain.take 100).filterMap _).length ≤ (chain.take 100).length :=
            List.length_filterMap_le _ _
        _ ≤ 100 := by simp [List.length_take]
  · rintro rfl
    rfl

/-- Witness for the amended C6: with `sinceBlock = 5` the returned
transaction at height 10 is strictly newer than 5, and the page cap holds. -/
theorem C6_fetch_contract_witness :
    (5 : Int) <
        ((fetchAddressTransactions [height10Entry] (some 5)).headD defaultTxData).blockNumber
      ∧ (fetchAddressTransactions [height10Entry] (some 5)).length ≤ 100 := by
  have hlist : fetchAddressTransactions [height10Entry] (some 5) =
      [parseTx "tx10" ⟨10, "bh10", 0, 0, 0, none, [], []⟩] := rfl
  refine ⟨?_, (C6_fetch_contract [height10Entry] (some 5)).2.2.1⟩
  exact (C6_fetch_contract [height10Entry] (some 5)).1 5 rfl (by decide)
    ((fetchAddressTransactions [height10Entry] (some 5)).headD defaultTxData)
    (by rw [hlist]; simp)

/-! ## Claim C7 — `getTransaction`: not-found versus provider fault -/

/-- A genuine provider fault: HTTP 503 with a non-matching message. -/
def faultErr : RawError := ⟨some "upstream exploded", none, some 503, none, none⟩

/-- A found transaction used by the C7 witness. -/
def cTx7 : BfTx := ⟨"tx7", "bh7", 1000, 0, 0, []⟩

/-- Claim C7 (as stated, refuted): the claim says a transport/provider fault
during the lookup is surfaced as a typed failure rather than returned as
none.  On the code, the trailing `.catch` of `getTransaction` converts
EVERY rejection to `null` — here a genuine 503 fault, whose normalization
is the typed retryable `ProviderUnavailable` failure, still comes back as
none, indistinguishable from "not yet on-chain". -/
theorem C7_counterexample :
    getTransaction true (.error faultErr) = none
      ∧ (normalizeBackendError (.raw faultErr) (some "Blockfrost")).code =
          "WATCHER_PROVIDER_UNAVAILABLE"
      ∧ (normalizeBackendError (.raw faultErr) (some "Blockfrost")).isRetryable = true := by
  refine ⟨rfl, by decide, by decide⟩

/-- Claim C7 as amended: `getTransaction` returns none exactly when the
client is uninitialized or the underlying lookup rejects for ANY reason —
not-yet-on-chain and genuine provider faults alike, since the catch
swallows the typed failure produced by normalization — and returns the
parsed summary exactly when the lookup succeeds. -/
theorem C7_none_characterization (initialized : Bool)
    (lookup : Except RawError (BfTx × Option Int)) :
    (getTransaction initialized lookup = none ↔
        (initialized = false ∨ ∃ e, lookup = .error e))
      ∧ (∀ tx lh, initialized = true → lookup = .ok (tx, lh) →
          getTransaction initialized lookup = some (parseTxInfo tx lh)) := by
  constructor
  · cases initialized <;> rcases lookup with v | e <;>
      simp [getTransaction, handleBackendRequest]
  · rintro tx lh hinit rfl
    rw [hinit]
    rfl

/-- Witness for the amended C7: a successful lookup yields the parsed
summary, not none. -/
theorem C7_none_characterization_witness :
    getTransaction true (.ok (cTx7, some 1100)) = some (parseTxInfo cTx7 (some 1100)) :=
  (C7_none_characterization true (.ok (cTx7, some 1100))).2 cTx7 (some 1100) rfl rfl

/-! ## Claim C8 — signal handlers accumulate across `setup` calls -/

/-- A configuration with an API key and no auto-start. -/
def cCfg8 : Config := ⟨some "test-key", none, "preview", false, none, none⟩

/-- Claim C8 (as stated, refuted): the claim says at most one handler per
termination signal is registered no matter how many times `setup` runs.  On
the code, `setup` calls `process.on("SIGTERM", stop)` and
`process.on("SIGINT", stop)` unconditionally, so two consecutive `setup`
calls leave two handlers per signal. -/
theorem C8_counterexample :
    (setup cCfg8 (setup cCfg8 initialWatcherState)).sigtermHandlers = 2
      ∧ (setup cCfg8 (setup cCfg8 initialWatcherState)).sigintHandlers = 2
      ∧ ¬((setup cCfg8 (setup cCfg8 initialWatcherState)).sigtermHandlers ≤ 1) := by
  refine ⟨by decide, by decide, by decide⟩

/-- Each `setup` call appends exactly one handler per termination signal,
whatever branches it takes. -/
theorem setup_handlers_step (cfg : Config) (s : WatcherState) :
    (setup cfg s).sigtermHandlers = s.sigtermHandlers + 1
      ∧ (setup cfg s).sigintHandlers = s.sigintHandlers + 1 := by
  simp only [setup, initializeClient, start, startAddressPolling, startTransactionPolling]
  split_ifs <;> simp

/-- Claim C8 as amended: the termination-signal hook is registered once per
`setup` call, not once globally — after `k` consecutive `setup` calls
exactly `k` handlers per termination signal are registered (duplicates
accumulate across re-initialization attempts). -/
theorem C8_handlers_accumulate (cfg : Config) (k : Nat) (s : WatcherState) :
    ((setup cfg)^[k] s).sigtermHandlers = s.sigtermHandlers + k
      ∧ ((setup cfg)^[k] s).sigintHandlers = s.sigintHandlers + k := by
  induction k with
  | zero => simp
  | succ n ih =>
    rw [Function.iterate_succ_apply']
    obtain ⟨h1, h2⟩ := setup_handlers_step cfg ((setup cfg)^[n] s)
    obtain ⟨h3, h4⟩ := ih
    constructor
    · rw [h1, h3]
      omega
    · rw [h2, h4]
      omega

/-! ## Claim C4 — the error-normalization priority cascade -/

/-- The normalization policy exactly as the claim words it, clause by clause
in priority order: pass-through; 429/rate-limit messages; 404/"not found";
status in [500,599]; other statuses in [400,499] ("not found" message →
NotFound, else ProviderUnavailable); timeout/network/connection-refused/
host-not-found MESSAGE patterns; and a final ProviderUnavailable with the
message prefixed "Unknown error:". -/
def claimNormalizeBackendError (err : JsError) (backendName : Option String) :
    BackendError :=
  match err with
  | .backend e => e
  | .raw r =>
    let message := extractMessage r
    let st := extractStatus r
    if st == some 429 || rateLimitMsg message then
      mkRateLimitError message backendName
    else if st == some 404 || notFoundMsg message then
      mkNotFoundError message backendName
    else if numTruthy st && 500 ≤ st.getD 0 && st.getD 0 ≤ 599 then
      mkProviderUnavailableError message backendName
    else if numTruthy st && 400 ≤ st.getD 0 && st.getD 0 ≤ 499 then
      if notFoundMsg message then mkNotFoundError message backendName
      else mkProviderUnavailableError message backendName
    else if networkMsg message then
      mkProviderUnavailableError message backendName
    else
      mkProviderUnavailableError ("Unknown error: " ++ message) backendName

/-- The claim's cascade amended in its sixth clause only: besides the
message patterns, a programmatic error `code` of `ECONNREFUSED` or
`ETIMEDOUT` also yields ProviderUnavailable without the "Unknown error:"
prefix — this is the `err.code` check the source performs alongside the
message test. -/
def amendedClaimNormalizeBackendError (err : JsError) (backendName : Option String) :
    BackendError :=
  match err with
  | .backend e => e
  | .raw r =>
    let message := extractMessage r
    let st := extractStatus r
    if st == some 429 || rateLimitMsg message then
      mkRateLimitError message backendName
    else if st == some 404 || notFoundMsg message then
      mkNotFoundError message backendName
    else if numTruthy st && 500 ≤ st.getD 0 && st.getD 0 ≤ 599 then
      mkProviderUnavailableError message backendName
    else if numTruthy st && 400 ≤ st.getD 0 && st.getD 0 ≤ 499 then
      if notFoundMsg message then mkNotFoundError message backendName
      else mkProviderUnavailableError message backendName
    else if networkMsg message || r.code == some "ECONNREFUSED"
        || r.code == some "ETIMEDOUT" then
      mkProviderUnavailableError message backendName
    else
      mkProviderUnavailableError ("Unknown error: " ++ message) backendName

/-- An error carrying only the Node error code `ECONNREFUSED` and a message
matching none of the cascade's message patterns. -/
def connRefusedErr : RawError := ⟨some "boom", none, none, none, some "ECONNREFUSED"⟩

/-- Claim C4 (as stated, refuted): the claim's cascade — whose sixth clause
recognizes only MESSAGE patterns — disagrees with the source on an error
whose `code` field is `ECONNREFUSED` but whose message matches nothing: the
source returns ProviderUnavailable with the untouched message, while the
claim's cascade falls through to the prefixed "Unknown error:" fallback. -/
theorem C4_counterexample :
    normalizeBackendError (.raw connRefusedErr) none ≠
        claimNormalizeBackendError (.raw connRefusedErr) none
      ∧ (normalizeBackendError (.raw connRefusedErr) none).message = "boom"
      ∧ (claimNormalizeBackendError (.raw connRefusedErr) none).message =
          "Unknown error: boom" := by
  refine ⟨by decide, by decide, by decide⟩

/-- Claim C4 as amended: the normalizer applies exactly the claim's priority
cascade with its sixth clause extended by the `err.code`
ECONNREFUSED/ETIMEDOUT test — on every input the source normalizer and the
amended policy agree. -/
theorem C4_normalizer_policy (err : JsError) (backendName : Option String) :
    normalizeBackendError err backendName =
      amendedClaimNormalizeBackendError err backendName := by
  cases err with
  | backend e => rfl
  | raw r =>
    simp only [normalizeBackendError, amendedClaimNormalizeBackendError]
    have h1 : decide ((extractStatus r).getD 0 < 600) =
        decide ((extractStatus r).getD 0 ≤ 599) := by
      rw [decide_eq_decide]
      omega
    have h2 : decide ((extractStatus r).getD 0 < 500) =
        decide ((extractStatus r).getD 0 ≤ 499) := by
      rw [decide_eq_decide]
      omega
    rw [h1, h2]

end OdatanoWatch
